import Mathlib

/-!
Shallow embedding of the financial-statement normalization and reconciliation
engine of this repository (src/app.py and src/main.py), together with theorems
settling the specification claims about it.

Conventions of the embedding:
* Python floats carried in provider payloads are modelled as exact rationals
  (`ℚ`); `NaN` payloads are not modelled (per the spec's §7 they count as
  malformed observations and are dropped, which coincides with an absent cell).
* Python dicts are modelled as association lists with Python's update
  semantics (`dictInsert`: overwrite in place, append when new).
* Python `datetime` values are modelled as `Date` records ordered
  lexicographically; the `"%Y-%m-%d"` strings of the source are parsed into
  `Date` at the model boundary.
* Python string formatting `f"{x:,}"` and `f"{x:.2f}"` are modelled by
  `fmtThousands`/`fmt2` (comma grouping, two decimals with round-half-even,
  matching CPython's formatting of the exactly-representable values used
  here); `int(x)` is truncation toward zero (`pyIntDiv`).
-/

/-- Calendar date, modelling the `datetime` objects of the source. -/
structure Date where
  year : ℕ
  month : ℕ
  day : ℕ
deriving DecidableEq, BEq

/-- Strict chronological order on dates (Python `datetime` comparison). -/
def Date.ltB (a b : Date) : Bool :=
  if a.year ≠ b.year then decide (a.year < b.year)
  else if a.month ≠ b.month then decide (a.month < b.month)
  else decide (a.day < b.day)

/-- Python dict assignment `m[k] = v`: overwrite in place, append when new. -/
def dictInsert {κ α : Type} [DecidableEq κ] : List (κ × α) → κ → α → List (κ × α)
  | [], k, v => [(k, v)]
  | (k', v') :: rest, k, v =>
    if k' = k then (k, v) :: rest else (k', v') :: dictInsert rest k v

/-- Update the entry stored under `k`, leaving other entries alone. -/
def dictUpdate {κ α : Type} [DecidableEq κ] (m : List (κ × α)) (k : κ) (f : α → α) :
    List (κ × α) :=
  m.map (fun p => if p.1 = k then (p.1, f p.2) else p)

/-- Does the needle occur at the head of the haystack? -/
def startsWithL : List Char → List Char → Bool
  | [], _ => true
  | _ :: _, [] => false
  | a :: as, b :: bs => a == b && startsWithL as bs

/-- Does the needle occur anywhere in the haystack? -/
def hasSubL : List Char → List Char → Bool
  | [], nee => nee.isEmpty
  | c :: t, nee => startsWithL nee (c :: t) || hasSubL t nee

/-- Python substring test `nee in hay`. -/
def containsSub (hay nee : String) : Bool := hasSubL hay.data nee.data

/-- Python truthiness of an optional float: `None` and `0` are falsy. -/
def truthyQ : Option ℚ → Bool
  | none => false
  | some v => v != 0

/-- Python `a or b` on optional floats: `b` when `a` is falsy. -/
def pyOr (a b : Option ℚ) : Option ℚ := if truthyQ a then a else b

/-- Truncation toward zero of the fraction `n / d` (`d` a positive natural):
Python `int()` applied to an exact quotient. -/
def pyIntDiv (n : ℤ) (d : ℕ) : ℤ := Int.sign n * ((n.natAbs / d : ℕ) : ℤ)

/-- Round `n / d` (with `d > 0`) to the nearest integer, ties to even:
the rounding CPython's `"%.2f"` performs on the exact values arising here. -/
def roundHEPair (n : ℤ) (d : ℤ) : ℤ :=
  let f := n.fdiv d
  let r := n - f * d
  if 2 * r < d then f
  else if d < 2 * r then f + 1
  else if f.emod 2 = 0 then f else f + 1

/-- Comma-group a digit string, three digits at a time from the right. -/
def group3 : List Char → List Char
  | a :: b :: c :: d :: rest => a :: b :: c :: ',' :: group3 (d :: rest)
  | l => l

/-- Thousands-separated rendering of a natural number. -/
def natCommas (n : ℕ) : String := ⟨(group3 (Nat.toDigits 10 n).reverse).reverse⟩

/-- Python `f"{i:,}"` for an integer `i`. -/
def fmtThousands (i : ℤ) : String :=
  if i < 0 then "-" ++ natCommas i.natAbs else natCommas i.natAbs

/-- Exactly two decimal digits, zero padded. -/
def twoDig (k : ℕ) : String := ⟨[Nat.digitChar (k / 10 % 10), Nat.digitChar (k % 10)]⟩

/-- Python `f"{v:.2f}"`: two-decimal rendering of a rational. -/
def fmt2 (v : ℚ) : String :=
  let n := roundHEPair (v.num * 100) (v.den : ℤ)
  (if n < 0 then "-" else "") ++ Nat.repr (n.natAbs / 100) ++ "." ++ twoDig (n.natAbs % 100)

/-- Python `f"{int(v/1000):,}"`: the unit normalization the source applies to
every monetary magnitude (divide by 1000, truncate toward zero, comma-group). -/
def fmtMoney (v : ℚ) : String := fmtThousands (pyIntDiv v.num (v.den * 1000))

/-- Lexicographic order on character lists: Python string comparison. -/
def listLtB : List Char → List Char → Bool
  | [], [] => false
  | [], _ :: _ => true
  | _ :: _, [] => false
  | a :: as, b :: bs => if a < b then true else if b < a then false else listLtB as bs

/-- Python `s1 < s2` on strings (code-point lexicographic). -/
def strLtB (a b : String) : Bool := listLtB a.data b.data

/-- Insert into a descending-sorted list, keeping insertion stable. -/
def insertQDesc (x : String) : List String → List String
  | [] => [x]
  | y :: ys => if strLtB y x then x :: y :: ys else y :: insertQDesc x ys

/-- Python `sorted(l, reverse=True)` on strings (stable, descending). -/
def sortQDesc (l : List String) : List String :=
  l.foldl (fun acc x => insertQDesc x acc) []

/-- Stable descending insertion by a Boolean comparison. -/
def insertDescBy {α : Type} (lt : α → α → Bool) (x : α) : List α → List α
  | [] => [x]
  | y :: ys => if lt y x then x :: y :: ys else y :: insertDescBy lt x ys

/-- Python `sorted(l, key=..., reverse=True)` (stable, descending). -/
def sortDescBy {α : Type} (lt : α → α → Bool) (l : List α) : List α :=
  l.foldl (fun acc x => insertDescBy lt x acc) []

/-! ### FinMind provider data (src/app.py, `fetch_finmind_data_history`) -/

/-- One row of a FinMind statement dataset: `{date, type, value}`. -/
structure FMRow where
  date : Date
  typ : String
  value : ℚ
deriving DecidableEq

/-- One row of the FinMind monthly revenue dataset: `{date, revenue}`. -/
structure RevRow where
  date : Date
  revenue : ℚ
deriving DecidableEq

/-- The four FinMind datasets fetched for one company. -/
structure FMData where
  income : List FMRow
  balance : List FMRow
  cash : List FMRow
  rev : List RevRow

/-- src/app.py line 95: ROC-calendar quarter label of a date; the day component
is discarded (the parse-failure branch is unreachable for structured dates). -/
def date_to_roc_quarter (d : Date) : String :=
  Nat.repr (d.year - 1911) ++ "年 Q" ++ Nat.repr ((d.month - 1) / 3 + 1)

/-- src/app.py line 107: `(year, quarter)` of a date. -/
def get_quarter_from_date (d : Date) : ℕ × ℕ := (d.year, (d.month - 1) / 3 + 1)

/-- src/app.py line 147: the calendar months spanned by a quarter. -/
def quarterMonths (q : ℕ) : List ℕ :=
  if q = 1 then [1, 2, 3]
  else if q = 2 then [4, 5, 6]
  else if q = 3 then [7, 8, 9]
  else if q = 4 then [10, 11, 12]
  else []

/-- src/app.py lines 147-163: sum the monthly revenues available for a quarter;
`none` when no month of the quarter is present in the monthly map. -/
def calculate_quarterly_rev (mmap : List ((ℕ × ℕ) × ℚ)) (year quarter : ℕ) : Option ℚ :=
  let vals := (quarterMonths quarter).filterMap (fun m => mmap.lookup (year, m))
  if 0 < vals.length then some vals.sum else none

/-- One period bucket of `quarter_buckets` (src/app.py lines 168-172). -/
structure Bucket where
  eps : List (String × ℚ)
  rev : List (String × ℚ)
  cf : List (String × ℚ)
  assets : Option ℚ
  liabs : Option ℚ
  curAssets : Option ℚ
  curLiabs : Option ℚ
  dateObj : Date

/-- The metric category tags of `add_candidate`. -/
inductive Cat where
  | eps | rev | cf | assets | liabs | curAssets | curLiabs

/-- A fresh bucket for a first observation dated `d`. -/
def bucketInit (d : Date) : Bucket := ⟨[], [], [], none, none, none, none, d⟩

/-- src/app.py lines 179-185: store one candidate in its category slot. -/
def applyCat (c : Cat) (key : String) (value : ℚ) (b : Bucket) : Bucket :=
  match c with
  | .eps => { b with eps := dictInsert b.eps key value }
  | .rev => { b with rev := dictInsert b.rev key value }
  | .cf => { b with cf := dictInsert b.cf key value }
  | .assets => { b with assets := some value }
  | .liabs => { b with liabs := some value }
  | .curAssets => { b with curAssets := some value }
  | .curLiabs => { b with curLiabs := some value }

/-- src/app.py lines 165-185: route an observation into its quarter bucket,
creating the bucket when absent and keeping the bucket's latest date. -/
def add_candidate (bkts : List (String × Bucket)) (date : Date) (c : Cat)
    (key : String) (value : ℚ) : List (String × Bucket) :=
  let q := date_to_roc_quarter date
  let bkts := if (bkts.lookup q).isSome then bkts else dictInsert bkts q (bucketInit date)
  dictUpdate bkts q (fun b =>
    applyCat c key value (if Date.ltB b.dateObj date then { b with dateObj := date } else b))

/-- src/app.py line 189. -/
def eps_keys : List String := ["EPS", "BasicEarningsPerShare", "EarningsPerShare", "NetIncomePerShare"]

/-- src/app.py lines 196-200. -/
def rev_keys : List String :=
  ["OperatingRevenue", "Revenue", "TotalOperatingRevenue", "NetRevenue", "SalesRevenue",
   "NetSales", "InterestIncome", "InsuranceRevenue", "GrossProfit"]

/-- src/app.py line 220. -/
def cf_keys : List String :=
  ["NetCashInflowFromOperatingActivities", "CashFlowsFromOperatingActivities",
   "CashFlowFromOperatingActivities"]

/-- src/app.py lines 188-192: ingest EPS candidates from the income statement. -/
def ingestEPS (bkts : List (String × Bucket)) (inc : List FMRow) : List (String × Bucket) :=
  inc.foldl (fun bs r =>
    if eps_keys.contains r.typ then add_candidate bs r.date Cat.eps r.typ r.value else bs) bkts

/-- src/app.py lines 195-207: ingest revenue candidates (exact key hit, or fuzzy
hit on labels containing `Revenue` but not `Non`). -/
def ingestRev (bkts : List (String × Bucket)) (inc : List FMRow) : List (String × Bucket) :=
  inc.foldl (fun bs r =>
    if rev_keys.contains r.typ then add_candidate bs r.date Cat.rev r.typ r.value
    else if containsSub r.typ "Revenue" && !containsSub r.typ "Non" then
      add_candidate bs r.date Cat.rev r.typ r.value
    else bs) bkts

/-- src/app.py lines 210-216: one balance-sheet row feeds up to four slots. -/
def balanceStep (bs : List (String × Bucket)) (r : FMRow) : List (String × Bucket) :=
  let bs := if ["TotalAssets", "Assets"].contains r.typ then
    add_candidate bs r.date Cat.assets r.typ r.value else bs
  let bs := if ["TotalLiabilities", "Liabilities"].contains r.typ then
    add_candidate bs r.date Cat.liabs r.typ r.value else bs
  let bs := if ["CurrentAssets", "TotalCurrentAssets", "AssetsCurrent"].contains r.typ then
    add_candidate bs r.date Cat.curAssets r.typ r.value else bs
  if ["CurrentLiabilities", "TotalCurrentLiabilities", "LiabilitiesCurrent"].contains r.typ then
    add_candidate bs r.date Cat.curLiabs r.typ r.value else bs

/-- src/app.py lines 210-216: ingest the balance sheet. -/
def ingestBalance (bkts : List (String × Bucket)) (bal : List FMRow) : List (String × Bucket) :=
  bal.foldl balanceStep bkts

/-- src/app.py lines 219-223: ingest operating cash-flow candidates. -/
def ingestCF (bkts : List (String × Bucket)) (cash : List FMRow) : List (String × Bucket) :=
  cash.foldl (fun bs r =>
    if cf_keys.contains r.typ then add_candidate bs r.date Cat.cf r.typ r.value else bs) bkts

/-- src/app.py line 233. -/
def EPS_PRIORITY : List String := ["EPS", "BasicEarningsPerShare", "EarningsPerShare"]

/-- src/app.py line 232. -/
def REV_PRIORITY : List String :=
  ["OperatingRevenue", "Revenue", "TotalOperatingRevenue", "NetRevenue", "SalesRevenue",
   "NetSales", "InterestIncome", "GrossProfit"]

/-- src/app.py line 234. -/
def CF_PRIORITY : List String :=
  ["NetCashInflowFromOperatingActivities", "CashFlowsFromOperatingActivities",
   "CashFlowFromOperatingActivities"]

/-- src/app.py lines 240-243 pattern: walk the priority list, return the first
candidate value present (`for p_key in PRIORITY: if p_key in candidates: ...`). -/
def resolveByPriority (prio : List String) (cands : List (String × ℚ)) : Option ℚ :=
  prio.findSome? (fun p => cands.lookup p)

/-- src/app.py lines 246-264: quarterly revenue cell — statement candidates by
priority first, then the monthly-revenue aggregate tagged `(月加總)`. -/
def revCell (b : Bucket) (mmap : List ((ℕ × ℕ) × ℚ)) : Option String :=
  match resolveByPriority REV_PRIORITY b.rev with
  | some v => some (fmtMoney v)
  | none =>
    match calculate_quarterly_rev mmap (get_quarter_from_date b.dateObj).1
        (get_quarter_from_date b.dateObj).2 with
    | some t => some (fmtMoney t ++ " (月加總)")
    | none => none

/-- The eight per-metric row maps of `final_struct` (src/app.py lines 227-230). -/
structure FinalStruct where
  rev : List (String × String)
  assets : List (String × String)
  liabs : List (String × String)
  debt : List (String × String)
  curA : List (String × String)
  curL : List (String × String)
  eps : List (String × String)
  cf : List (String × String)

/-- The empty `final_struct`. -/
def finalStructInit : FinalStruct := ⟨[], [], [], [], [], [], [], []⟩

/-- src/app.py lines 239-243: EPS resolution for one quarter. -/
def stepEPS (fs : FinalStruct) (q : String) (b : Bucket) : FinalStruct :=
  match resolveByPriority EPS_PRIORITY b.eps with
  | some v => { fs with eps := dictInsert fs.eps q (fmt2 v) }
  | none => fs

/-- src/app.py lines 245-264: revenue resolution for one quarter. -/
def stepRev (mmap : List ((ℕ × ℕ) × ℚ)) (fs : FinalStruct) (q : String) (b : Bucket) :
    FinalStruct :=
  match revCell b mmap with
  | some s => { fs with rev := dictInsert fs.rev q s }
  | none => fs

/-- src/app.py lines 266-270: cash-flow resolution for one quarter. -/
def stepCF (fs : FinalStruct) (q : String) (b : Bucket) : FinalStruct :=
  match resolveByPriority CF_PRIORITY b.cf with
  | some v => { fs with cf := dictInsert fs.cf q (fmtMoney v) }
  | none => fs

/-- src/app.py lines 272-278: assets, liabilities and the debt ratio for one
quarter; the ratio is computed only behind `assets` truthy, `liabs` truthy and
`assets > 0`. -/
def stepBalance (fs : FinalStruct) (q : String) (b : Bucket) : FinalStruct :=
  if truthyQ b.assets then
    let a := b.assets.getD 0
    let fs1 := { fs with assets := dictInsert fs.assets q (fmtMoney a) }
    if truthyQ b.liabs then
      let l := b.liabs.getD 0
      let fs2 := { fs1 with liabs := dictInsert fs1.liabs q (fmtMoney l) }
      if 0 < a then
        { fs2 with debt := dictInsert fs2.debt q (fmt2 (l / a * 100) ++ "%") }
      else fs2
    else fs1
  else fs

/-- src/app.py lines 279-280: current assets / current liabilities cells. -/
def stepCur (fs : FinalStruct) (q : String) (b : Bucket) : FinalStruct :=
  let fs := if truthyQ b.curAssets then
    { fs with curA := dictInsert fs.curA q (fmtMoney (b.curAssets.getD 0)) } else fs
  if truthyQ b.curLiabs then
    { fs with curL := dictInsert fs.curL q (fmtMoney (b.curLiabs.getD 0)) } else fs

/-- src/app.py lines 236-280: the whole resolution loop body for one quarter. -/
def stepQuarter (mmap : List ((ℕ × ℕ) × ℚ)) (fs : FinalStruct) (q : String) (b : Bucket) :
    FinalStruct :=
  stepCur (stepBalance (stepCF (stepRev mmap (stepEPS fs q b) q b) q b) q b) q b

/-- `"YYYY-MM"` month label (src/app.py line 286, `row['date'][:7] + " (月)"`). -/
def pad2 (n : ℕ) : String := if n < 10 then "0" ++ Nat.repr n else Nat.repr n

/-- Month-row key of the revenue row. -/
def monthKey (d : Date) : String := Nat.repr d.year ++ "-" ++ pad2 d.month ++ " (月)"

/-- src/app.py lines 283-287: the eight most recent monthly-revenue rows. -/
def monthRowsOf (rev : List RevRow) : List (String × String) :=
  ((sortDescBy (fun a b => Date.ltB a.date b.date) rev).take 8).map
    (fun r => (monthKey r.date, fmtMoney r.revenue))

/-- src/app.py lines 291-297: a metric row — the `項目` name plus its populated
cells; a metric with no cells yields a row holding only `項目`. -/
def rowOf (name : String) (entries : List (String × String)) : List (String × String) :=
  if entries.isEmpty then [("項目", name)] else ("項目", name) :: entries

/-- src/app.py line 299: the provenance row appended to every FinMind series. -/
def srcRowFM : List (String × String) := [("項目", "資料來源"), ("說明", "FinMind (興櫃備援)")]

/-- src/app.py lines 135-299: bucket, resolve and assemble the FinMind series
(the pure part of `fetch_finmind_data_history` after the four fetches). -/
def finmindSeries (D : FMData) : List (List (String × String)) :=
  let mmap := D.rev.foldl (fun m r => dictInsert m (r.date.year, r.date.month) r.revenue) []
  let bkts := ingestCF (ingestBalance (ingestRev (ingestEPS [] D.income) D.income) D.balance) D.cash
  let sorted_quarters := (sortQDesc (bkts.map Prod.fst)).take 6
  let fs := sorted_quarters.foldl (fun fs q =>
    match bkts.lookup q with
    | some b => stepQuarter mmap fs q b
    | none => fs) finalStructInit
  let revAll := (monthRowsOf D.rev).foldl (fun acc p => dictInsert acc p.1 p.2) fs.rev
  [rowOf "營業收入" revAll, rowOf "總資產" fs.assets, rowOf "總負債" fs.liabs,
   rowOf "負債比" fs.debt, rowOf "流動資產" fs.curA, rowOf "流動負債" fs.curL,
   rowOf "每股盈餘(EPS)" fs.eps, rowOf "營業活動淨現金流" fs.cf] ++ [srcRowFM]

/-- src/app.py lines 112-304: `None` when all four datasets are empty
(`if not any([...])`), otherwise the assembled series. -/
def fetch_finmind_data_history (D : FMData) : Option (List (List (String × String))) :=
  if (D.income.isEmpty && D.balance.isEmpty && D.cash.isEmpty && D.rev.isEmpty) = true then none
  else some (finmindSeries D)

/-! ### yfinance provider data (src/app.py, `fetch_and_upload_data` / `extract_value`)

A `Frame` models a pandas DataFrame after the source's `concat`, transpose and
column de-duplication: an ordered date index and, per date, the non-null cells
keyed by column label (a `NaN` or absent cell is simply not listed; `cols`
lists every column label, populated or not, for the `eng_col in df.columns`
tests). -/

structure Frame where
  cols : List String
  rows : List (Date × List (String × ℚ))

/-- src/app.py lines 351-360: the yfinance label → canonical-metric mapping,
in the source's (insertion) order. -/
def mappingYF : List (String × String) :=
  [("Total Revenue", "營業收入"), ("Operating Revenue", "營業收入"),
   ("Total Assets", "總資產"),
   ("Total Liabilities Net Minority Interest", "總負債"), ("Total Liabilities", "總負債"),
   ("Current Assets", "流動資產"), ("Current Liabilities", "流動負債"),
   ("Basic EPS", "每股盈餘(EPS)"),
   ("Operating Cash Flow", "營業活動淨現金流"),
   ("Total Cash From Operating Activities", "營業活動淨現金流"),
   ("Cash Flow From Continuing Operating Activities", "營業活動淨現金流")]

/-- src/app.py lines 407-411: unit normalization of a found value — monetary
metrics are `f"{int(v/1000):,}"`, EPS stays in native units as `f"{v:.2f}"`. -/
def normalizeYF (target : String) (v : ℚ) : String :=
  if target ≠ "每股盈餘(EPS)" then fmtMoney v else fmt2 v

/-- src/app.py lines 392-412: extract one cell. The debt-ratio branch guards
the division only by Python truthiness of the two operands (`if liab and
assets`); the generic branch walks `mapping` and takes the first non-null hit. -/
def extract_value (df : Frame) (d : Date) (target : String) : String :=
  if target = "負債比" then
    let row := (df.rows.lookup d).getD []
    let liab := pyOr (row.lookup "Total Liabilities Net Minority Interest")
      (row.lookup "Total Liabilities")
    let assets := row.lookup "Total Assets"
    if truthyQ liab && truthyQ assets then
      fmt2 (liab.getD 0 / assets.getD 0 * 100) ++ "%"
    else "-"
  else
    match mappingYF.findSome? (fun p =>
      if p.2 = target ∧ df.cols.contains p.1 then ((df.rows.lookup d).getD []).lookup p.1
      else none) with
    | some v => normalizeYF target v
    | none => "-"

/-- Modelled from the spec: `date_to_roc_year` is called at src/app.py line 373
but defined nowhere in the repository. Per spec §3 the fiscal-year label is the
calendar year adjusted to the domestic (ROC) fiscal epoch, rendered like the
quarter labels without a quarter part — the form `main.py` expects
(`f"{roc_year}年"`). -/
def date_to_roc_year (d : Date) : String := Nat.repr (d.year - 1911) ++ "年"

/-- src/app.py line 362 (and main.py lines 101-106): the displayed metrics. -/
def target_items : List String :=
  ["營業收入", "總資產", "負債比", "流動資產", "流動負債", "每股盈餘(EPS)", "營業活動淨現金流"]

/-- src/app.py lines 364-377: one metric row — a dict keyed by quarter labels
of the quarterly frame then year labels of the annual frame. -/
def rowFor (dfq : Frame) (dfa? : Option Frame) (t : String) : List (String × String) :=
  let base := dfq.rows.foldl (fun acc p =>
    dictInsert acc (date_to_roc_quarter p.1) (extract_value dfq p.1 t)) [("項目", t)]
  match dfa? with
  | some dfa => dfa.rows.foldl (fun acc p =>
      dictInsert acc (date_to_roc_year p.1) (extract_value dfa p.1 t)) base
  | none => base

/-- src/app.py lines 362-377: the yfinance-sourced rows, one per metric. -/
def buildYfRows (dfq : Frame) (dfa? : Option Frame) : List (List (String × String)) :=
  target_items.map (rowFor dfq dfa?)

/-- src/app.py lines 338-349: `sort_index(ascending=False).head(n)`. -/
def sortFrame (f : Frame) (n : ℕ) : Frame :=
  ⟨f.cols, (sortDescBy (fun a b => Date.ltB a.1 b.1) f.rows).take n⟩

/-- The yfinance upstream result for one company: emptiness of the quarterly
balance sheet / income statement / annual income statement (which drive the
source's fallback tests), plus the combined quarterly and annual frames. -/
structure YfData where
  qbs_empty : Bool
  qis_empty : Bool
  dfq : Frame
  ais_empty : Bool
  dfa : Frame

/-- The record upserted into `underwriting_cache` (src/app.py lines 380-385). -/
structure Payload where
  code : String
  name : String
  financial_data : List (List (String × String))
  updated_at : String

/-- src/app.py lines 307-390: the per-company pipeline. yfinance is primary;
when forced, or when the quarterly balance sheet or income statement is empty,
the FinMind series is used instead; `none` models the `return False` paths. -/
def fetch_and_upload_data (stock_code stock_name : String) (force_finmind : Bool)
    (yf : YfData) (fm : FMData) (now : String) : Option Payload :=
  if force_finmind then
    match fetch_finmind_data_history fm with
    | some l => some ⟨stock_code, stock_name, l, now⟩
    | none => none
  else if yf.qbs_empty || yf.qis_empty then
    match fetch_finmind_data_history fm with
    | some l => some ⟨stock_code, stock_name, l, now⟩
    | none => none
  else
    some ⟨stock_code, stock_name,
      buildYfRows (sortFrame yf.dfq 12)
        (if yf.ais_empty then none else some (sortFrame yf.dfa 5)), now⟩

/-! ### The query API (src/main.py, `analyze`) -/

/-- One row of the `underwriting_cache` table as `main.py` reads it. -/
structure DbRecord where
  code : String
  name : String
  financial_data : List (List (String × String))

/-- An HTTP response: status code plus the JSON body's fields. -/
structure Response where
  status : ℕ
  body : List (String × String)

/-- src/main.py line 62 pattern: the `項目` name of a row. -/
def itemOf (r : List (String × String)) : String := (r.lookup "項目").getD ""

/-- src/main.py line 57: the non-`項目` keys of the FIRST row only. -/
def allKeysOf (rows : List (List (String × String))) : List String :=
  match rows with
  | [] => []
  | r :: _ => (r.map Prod.fst).filter (fun k => k ≠ "項目")

/-- src/main.py line 58: keys containing `Q`, sorted descending. -/
def allQuartersOf (rows : List (List (String × String))) : List String :=
  sortQDesc ((allKeysOf rows).filter (fun k => containsSub k "Q"))

/-- src/main.py line 62: the first row whose `項目` contains `營業收入`. -/
def revRowOf (rows : List (List (String × String))) : Option (List (String × String)) :=
  rows.find? (fun r => containsSub (itemOf r) "營業收入")

/-- src/main.py line 69: the values treated as empty cells. -/
def sentinelVals : List String := ["-", "0", "N/A", "None", "nan"]

/-- src/main.py lines 64-73: quarters whose revenue cell is non-sentinel; all
quarters when no revenue row was found. -/
def validQuartersOf (rows : List (List (String × String))) : List String :=
  match revRowOf rows with
  | some rr => (allQuartersOf rows).filter (fun q => !sentinelVals.contains ((rr.lookup q).getD "-"))
  | none => allQuartersOf rows

/-- src/main.py line 76: the five most recent valid quarters become columns. -/
def displayQuartersOf (rows : List (List (String × String))) : List String :=
  (validQuartersOf rows).take 5

/-- src/main.py lines 84-92: the year-column value — the annual cell when
present and non-sentinel, else the Q4 cell suffixed `" (Q4)"`, else `"-"`. -/
def get_year_val (roc : ℕ) (row : List (String × String)) : String :=
  let keyFull := Nat.repr roc ++ "年"
  let keyQ4 := Nat.repr roc ++ "年 Q4"
  match row.lookup keyFull with
  | some v =>
    if ["-", "None", "0"].contains v then
      match row.lookup keyQ4 with
      | some v4 => v4 ++ " (Q4)"
      | none => "-"
    else v
  | none =>
    match row.lookup keyQ4 with
    | some v4 => v4 ++ " (Q4)"
    | none => "-"

/-- src/main.py lines 111-126: one markdown body row. -/
def mdRowFor (rows : List (List (String × String))) (display : List String) (item : String) :
    String :=
  match rows.find? (fun r => containsSub (itemOf r) item) with
  | some rd =>
    "| **" ++ item ++ "** | " ++
      String.intercalate " | "
        ((display.map (fun q => (rd.lookup q).getD "-")) ++
          [get_year_val 112 rd, get_year_val 113 rd]) ++ " |"
  | none =>
    "| **" ++ item ++ "** | " ++
      String.intercalate " | " (List.replicate (display.length + 2) "-") ++ " |"

/-- src/main.py lines 94-128: the assembled markdown table. -/
def buildMarkdown (rows : List (List (String × String))) : String :=
  let display := displayQuartersOf rows
  let headers := display ++ ["2023年", "2024年"]
  let headerStr := "| 項目 | " ++ String.intercalate " | " headers ++ " |"
  let sepStr := "| :--- | " ++ String.intercalate " | " (List.replicate headers.length ":---") ++ " |"
  headerStr ++ "\n" ++ sepStr ++ "\n" ++
    String.intercalate "\n" (target_items.map (mdRowFor rows display))

/-- Digits-only string to a natural number (`none` on empty or non-digit). -/
def parseNatDigits (s : String) : Option ℕ :=
  if s = "" then none
  else if s.data.all Char.isDigit then
    some (s.data.foldl (fun n c => n * 10 + (c.toNat - 48)) 0)
  else none

/-- Python `float(...)` on the numeric strings this pipeline produces
(optional sign, digits, optional decimal part); `none` models `ValueError`. -/
def parseNum (s : String) : Option ℚ :=
  let signed : Bool × String :=
    match s.data with
    | '-' :: rest => (true, String.mk rest)
    | _ => (false, s)
  let q? : Option ℚ :=
    match signed.2.splitOn "." with
    | [ip] => (parseNatDigits ip).map (fun n => (n : ℚ))
    | [ip, fp] =>
      match parseNatDigits ip, parseNatDigits fp with
      | some n, some f => some ((n : ℚ) + (f : ℚ) / ((10 : ℚ) ^ fp.length))
      | _, _ => none
    | _ => none
  q?.map (fun q => if signed.1 then -q else q)

/-- src/main.py lines 133-145: the Group A revenue-threshold conclusion; any
parse failure falls back to the default verdict (the bare `except`). -/
def conclusionOf (rows : List (List (String × String))) : String :=
  match revRowOf rows, displayQuartersOf rows with
  | some rr, latest :: _ =>
    let valStr := ((((rr.lookup latest).getD "0").replace "," "").splitOn " ").headD ""
    match parseNum valStr with
    | some v =>
      if 15000000 < v then "⚠️ **本案不符合 Group A** (營收 > 150億，屬大型企業)"
      else "✅ **符合 Group A** (營收 < 150億)"
    | none => "⚠️ 無法判定"
  | _, _ => "⚠️ 無法判定"

/-- src/main.py lines 22-155: the `POST /analyze` handler. The request body is
an `Except` (a parse failure lands in the outer handler), and the database
round-trip likewise (`supabase` may be `None`, the query may raise); every
branch builds its own JSON body. -/
def analyze (body : Except String (List (String × String)))
    (dbRes : Except String (List DbRecord)) : Response :=
  match body with
  | .error e => ⟨200, [("error", e), ("markdown_table", "❌ 系統處理錯誤")]⟩
  | .ok bd =>
    let query := ((bd.lookup "company").getD "").trim
    if query = "" then
      ⟨200, [("error", "Input Empty"), ("markdown_table", "❌ 未收到輸入值")]⟩
    else
      match dbRes with
      | .error e => ⟨200, [("error", e), ("markdown_table", "❌ 系統處理錯誤")]⟩
      | .ok [] =>
        ⟨200, [("error", "Not Found"),
               ("markdown_table", "⚠️ 中台無 **" ++ query ++ "** 數據，請先至 Streamlit 採集。"),
               ("conclusion", "缺數據")]⟩
      | .ok (record :: _) =>
        if record.financial_data.isEmpty then
          ⟨200, [("markdown_table", "❌ 數據異常")]⟩
        else
          ⟨200, [("header", "【D&O 完整財報 - " ++ record.name ++ "】"),
                 ("markdown_table", buildMarkdown record.financial_data),
                 ("conclusion", conclusionOf record.financial_data),
                 ("status", "success")]⟩

/-! ### Concrete instances used by counterexamples and witnesses -/

/-- The six monetary-magnitude canonical metrics (Revenue, TotalAssets,
TotalLiabilities, CurrentAssets, CurrentLiabilities, OperatingCashFlow), by
their display names in the source. -/
def monetaryItems : List String :=
  ["營業收入", "總資產", "總負債", "流動資產", "流動負債", "營業活動淨現金流"]

/-- A quarterly frame whose only statement cells are a negative total-asset
figure and a positive total-liability figure for 2024-12-31. -/
def exFrameNeg : Frame :=
  ⟨["Total Assets", "Total Liabilities"],
   [(⟨2024, 12, 31⟩, [("Total Assets", -100), ("Total Liabilities", 50)])]⟩

/-- A frame carrying a zero total-asset figure for 2024-12-31. -/
def exFrameZero : Frame :=
  ⟨["Total Assets", "Total Liabilities"],
   [(⟨2024, 12, 31⟩, [("Total Assets", 0), ("Total Liabilities", 50)])]⟩

/-- A bucket whose balance sheet resolved negative assets. -/
def exBucketNeg : Bucket := ⟨[], [], [], some (-5), some 3, none, none, ⟨2024, 1, 1⟩⟩

/-- FinMind data holding a single EPS observation and nothing else. -/
def exD3 : FMData := ⟨[⟨⟨2025, 9, 30⟩, "EPS", 3⟩], [], [], []⟩

/-- Quarterly yfinance frame with Basic EPS 1.00 / 1.20 / 1.30 for the first
three quarters of 2024 and no Q4 date. -/
def ex2Dfq : Frame :=
  ⟨["Basic EPS"],
   [(⟨2024, 3, 31⟩, [("Basic EPS", 1)]), (⟨2024, 6, 30⟩, [("Basic EPS", 6/5)]),
    (⟨2024, 9, 30⟩, [("Basic EPS", 13/10)])]⟩

/-- Annual yfinance frame with Basic EPS 5.00 for fiscal 2024. -/
def ex2Dfa : Frame := ⟨["Basic EPS"], [(⟨2024, 12, 31⟩, [("Basic EPS", 5)])]⟩

/-- Non-empty primary data combining `ex2Dfq` and `ex2Dfa`. -/
def ex2Yf : YfData := ⟨false, false, ex2Dfq, false, ex2Dfa⟩

/-- An empty FinMind result. -/
def ex2FM : FMData := ⟨[], [], [], []⟩

/-- The EPS row assembled by the pipeline from `ex2Yf`. -/
def ex2EpsRow : List (String × String) :=
  ((((fetch_and_upload_data "9999" "demo" false ex2Yf ex2FM "2025-01-01").map
      Payload.financial_data).getD []).find?
    (fun r => itemOf r = "每股盈餘(EPS)")).getD []

/-- A bucket with no revenue statement candidates, dated inside 2025 Q3. -/
def exBucketQ3 : Bucket := ⟨[], [], [], none, none, none, none, ⟨2025, 8, 15⟩⟩

/-- Monthly revenue for only two of the three months of 2025 Q3. -/
def exMmapQ3 : List ((ℕ × ℕ) × ℚ) := [((2025, 7), 100000), ((2025, 8), 200000)]

/-- An empty primary provider result (both quarterly statements empty). -/
def exYfEmpty : YfData := ⟨true, true, ⟨[], []⟩, true, ⟨[], []⟩⟩

/-- A second empty primary provider result with different (unused) frames. -/
def exYfEmpty' : YfData :=
  ⟨true, false, ⟨["Total Assets"], [(⟨2024, 12, 31⟩, [("Total Assets", 7)])]⟩, true, ⟨[], []⟩⟩

/-- A persisted series whose revenue row resolves one quarter. -/
def exRowsW : List (List (String × String)) :=
  [[("項目", "營業收入"), ("114年 Q1", "100")], [("項目", "每股盈餘(EPS)")]]

/-- A row with a sentinel annual cell and a populated Q4 cell for ROC 113. -/
def exRowW2 : List (String × String) :=
  [("項目", "每股盈餘(EPS)"), ("113年", "-"), ("113年 Q4", "2.00")]

/-! ### Order lemmas for the string sort used by the assemblers -/

theorem listLtB_asymm {a b : List Char} (h : listLtB a b = true) : listLtB b a = false := by
  induction a generalizing b with
  | nil =>
    cases b with
    | nil => simp [listLtB] at h
    | cons y ys => rfl
  | cons x xs ih =>
    cases b with
    | nil => simp [listLtB] at h
    | cons y ys =>
      simp only [listLtB] at h ⊢
      by_cases hxy : x < y
      · rw [if_neg (lt_asymm hxy), if_pos hxy]
      · rw [if_neg hxy] at h
        by_cases hyx : y < x
        · rw [if_pos hyx] at h
          exact absurd h (by simp)
        · rw [if_neg hyx] at h
          rw [if_neg hyx, if_neg hxy]
          exact ih h

theorem listLtB_le_trans {a b c : List Char} (h1 : listLtB a b = false)
    (h2 : listLtB b c = false) : listLtB a c = false := by
  induction a generalizing b c with
  | nil =>
    cases b with
    | nil => exact h2
    | cons y ys => simp [listLtB] at h1
  | cons x xs ih =>
    cases c with
    | nil => rfl
    | cons z zs =>
      cases b with
      | nil => simp [listLtB] at h2
      | cons y ys =>
        simp only [listLtB] at h1 h2 ⊢
        by_cases hxy : x < y
        · rw [if_pos hxy] at h1; exact absurd h1 (by simp)
        · rw [if_neg hxy] at h1
          by_cases hyz : y < z
          · rw [if_pos hyz] at h2; exact absurd h2 (by simp)
          · rw [if_neg hyz] at h2
            have hzx : ¬ x < z := by
              intro hlt
              exact absurd (lt_of_lt_of_le hlt (le_of_not_lt hyz)) hxy
            rw [if_neg hzx]
            by_cases hzx' : z < x
            · rw [if_pos hzx']
            · rw [if_neg hzx']
              have hzy : z ≤ y := le_of_not_lt hyz
              have hyx' : y ≤ x := le_of_not_lt hxy
              have hxz : x = z := le_antisymm (le_of_not_lt hzx') (le_of_not_lt hzx)
              subst hxz
              have hyx : y = x := le_antisymm hyx' hzy
              subst hyx
              rw [if_neg (lt_irrefl _)] at h1 h2
              exact ih h1 h2

theorem strLtB_asymm {a b : String} (h : strLtB a b = true) : strLtB b a = false :=
  listLtB_asymm h

theorem strLtB_le_trans {a b c : String} (h1 : strLtB a b = false)
    (h2 : strLtB b c = false) : strLtB a c = false :=
  listLtB_le_trans h1 h2

theorem mem_insertQDesc {z x : String} {l : List String} :
    z ∈ insertQDesc x l ↔ z = x ∨ z ∈ l := by
  induction l with
  | nil => simp [insertQDesc]
  | cons y ys ih =>
    simp only [insertQDesc]
    by_cases h : strLtB y x = true
    · rw [if_pos h]
      simp [List.mem_cons]
    · rw [if_neg h]
      simp only [List.mem_cons, ih]
      tauto

theorem pairwise_insertQDesc {x : String} {l : List String}
    (hl : l.Pairwise (fun a b => strLtB a b = false)) :
    (insertQDesc x l).Pairwise (fun a b => strLtB a b = false) := by
  induction l with
  | nil => simp [insertQDesc]
  | cons y ys ih =>
    rcases List.pairwise_cons.mp hl with ⟨hy, hys⟩
    simp only [insertQDesc]
    by_cases h : strLtB y x = true
    · rw [if_pos h]
      refine List.pairwise_cons.mpr ⟨?_, hl⟩
      intro z hz
      rcases List.mem_cons.mp hz with rfl | hz'
      · exact strLtB_asymm h
      · exact strLtB_le_trans (strLtB_asymm h) (hy z hz')
    · rw [if_neg h]
      refine List.pairwise_cons.mpr ⟨?_, ih hys⟩
      intro z hz
      rcases mem_insertQDesc.mp hz with rfl | hz'
      · exact Bool.not_eq_true _ ▸ h
      · exact hy z hz'

theorem sortQDesc_pairwise (l : List String) :
    (sortQDesc l).Pairwise (fun a b => strLtB a b = false) := by
  suffices h : ∀ acc : List String, acc.Pairwise (fun a b => strLtB a b = false) →
      (l.foldl (fun acc x => insertQDesc x acc) acc).Pairwise (fun a b => strLtB a b = false) from
    h [] (by simp)
  induction l with
  | nil => intro acc hacc; exact hacc
  | cons x xs ih => intro acc hacc; exact ih _ (pairwise_insertQDesc hacc)

theorem mem_sortQDesc {z : String} {l : List String} : z ∈ sortQDesc l ↔ z ∈ l := by
  suffices h : ∀ acc : List String,
      (z ∈ l.foldl (fun acc x => insertQDesc x acc) acc ↔ z ∈ acc ∨ z ∈ l) by
    simpa [sortQDesc] using h []
  induction l with
  | nil => intro acc; simp
  | cons x xs ih =>
    intro acc
    simp only [List.foldl_cons]
    rw [ih]
    simp only [mem_insertQDesc, List.mem_cons]
    tauto

/-! ### Preservation lemmas for the per-quarter resolution steps -/

theorem stepEPS_debt (fs : FinalStruct) (q : String) (b : Bucket) :
    (stepEPS fs q b).debt = fs.debt := by
  unfold stepEPS
  cases resolveByPriority EPS_PRIORITY b.eps <;> rfl

theorem stepRev_debt (mmap : List ((ℕ × ℕ) × ℚ)) (fs : FinalStruct) (q : String) (b : Bucket) :
    (stepRev mmap fs q b).debt = fs.debt := by
  unfold stepRev
  cases revCell b mmap <;> rfl

theorem stepCF_debt (fs : FinalStruct) (q : String) (b : Bucket) :
    (stepCF fs q b).debt = fs.debt := by
  unfold stepCF
  cases resolveByPriority CF_PRIORITY b.cf <;> rfl

theorem stepCur_debt (fs : FinalStruct) (q : String) (b : Bucket) :
    (stepCur fs q b).debt = fs.debt := by
  unfold stepCur
  by_cases h1 : truthyQ b.curAssets = true <;> by_cases h2 : truthyQ b.curLiabs = true <;>
    simp [h1, h2]

theorem stepBalance_debt_none (fs : FinalStruct) (q : String) (b : Bucket)
    (h : truthyQ b.assets = false) : (stepBalance fs q b).debt = fs.debt := by
  unfold stepBalance
  rw [if_neg (by simp [h])]

theorem stepBalance_debt_nonpos (fs : FinalStruct) (q : String) (b : Bucket) (a : ℚ)
    (hb : b.assets = some a) (ha : a ≤ 0) : (stepBalance fs q b).debt = fs.debt := by
  unfold stepBalance
  rcases lt_or_eq_of_le ha with hneg | hzero
  · rw [if_pos (by simp [hb, truthyQ, hneg.ne])]
    by_cases hl : truthyQ b.liabs = true
    · rw [if_pos hl, if_neg (by simp [hb]; exact ha)]
    · rw [if_neg hl]
  · rw [if_neg (by simp [hb, truthyQ, ← hzero])]

theorem stepBalance_debt_pos (fs : FinalStruct) (q : String) (b : Bucket) (a l : ℚ)
    (hb : b.assets = some a) (ha : 0 < a) (hl : b.liabs = some l) (hl0 : l ≠ 0) :
    (stepBalance fs q b).debt = dictInsert fs.debt q (fmt2 (l / a * 100) ++ "%") := by
  unfold stepBalance
  rw [if_pos (by simp [hb, truthyQ, ha.ne']), if_pos (by simp [hl, truthyQ, hl0])]
  rw [if_pos (by simp [hb]; exact ha)]
  simp [hb, hl]

theorem stepQuarter_debt_pre (mmap : List ((ℕ × ℕ) × ℚ)) (fs : FinalStruct) (q : String)
    (b : Bucket) :
    (stepQuarter mmap fs q b).debt =
      (stepBalance (stepCF (stepRev mmap (stepEPS fs q b) q b) q b) q b).debt := by
  unfold stepQuarter
  exact stepCur_debt _ _ _

/-! ### Claim C1 — the debt-ratio guard -/

unseal Rat.mul Rat.inv in
/-- C1 (counterexample): the claim says the division is never performed on a
zero or negative denominator and that `TotalAssets ≤ 0` yields the
"unavailable" sentinel; but `extract_value` guards only by Python truthiness,
so a negative `TotalAssets` of −100 with `TotalLiabilities` 50 is divided and
renders "-50.00%" instead of the sentinel "-". -/
theorem debt_ratio_negative_assets_cx :
    extract_value exFrameNeg ⟨2024, 12, 31⟩ "負債比" = "-50.00%"
    ∧ extract_value exFrameNeg ⟨2024, 12, 31⟩ "負債比" ≠ "-" := by
  constructor
  · decide
  · decide

/-- C1 (amended): the debt ratio is `TotalLiabilities / TotalAssets × 100`
rendered with two decimals and a percent suffix, and it is withheld (the cell
stays absent, rendered as the "unavailable" sentinel) whenever the operands are
not both truthy: in the FinMind resolution path additionally whenever
`TotalAssets ≤ 0`, while the yfinance extraction path guards only missing or
exactly-zero (falsy) values — a negative `TotalAssets` there is divided. -/
theorem debt_ratio_guard_amended (b : Bucket) (fs : FinalStruct) (q : String)
    (mmap : List ((ℕ × ℕ) × ℚ)) (a l : ℚ) :
    (b.assets = none → (stepQuarter mmap fs q b).debt = fs.debt)
    ∧ (b.assets = some a → a ≤ 0 → (stepQuarter mmap fs q b).debt = fs.debt)
    ∧ (b.assets = some a → 0 < a → b.liabs = some l → l ≠ 0 →
        (stepQuarter mmap fs q b).debt = dictInsert fs.debt q (fmt2 (l / a * 100) ++ "%"))
    ∧ (∀ (df : Frame) (d : Date),
        truthyQ (((df.rows.lookup d).getD []).lookup "Total Assets") = false →
        extract_value df d "負債比" = "-") := by
  have hpre : (stepBalance (stepCF (stepRev mmap (stepEPS fs q b) q b) q b) q b).debt =
      (stepBalance (stepCF (stepRev mmap (stepEPS fs q b) q b) q b) q b).debt := rfl
  have hchain : (stepCF (stepRev mmap (stepEPS fs q b) q b) q b).debt = fs.debt := by
    rw [stepCF_debt, stepRev_debt, stepEPS_debt]
  refine ⟨fun ha => ?_, fun ha hle => ?_, fun ha hpos hl hl0 => ?_, fun df d hta => ?_⟩
  · rw [stepQuarter_debt_pre, stepBalance_debt_none _ _ _ (by simp [ha, truthyQ]), hchain]
  · rw [stepQuarter_debt_pre, stepBalance_debt_nonpos _ _ _ a ha hle, hchain]
  · rw [stepQuarter_debt_pre, stepBalance_debt_pos _ _ _ a l ha hpos hl hl0, hchain]
  · unfold extract_value
    rw [if_pos rfl]
    simp [hta]

/-- C1 (witness): the amended guard at concrete inputs — a bucket with
negative resolved assets adds no debt-ratio cell, and an extraction over a
zero-assets frame returns the sentinel. -/
theorem debt_ratio_guard_amended_witness :
    (stepQuarter [] finalStructInit "113年 Q1" exBucketNeg).debt = finalStructInit.debt
    ∧ extract_value exFrameZero ⟨2024, 12, 31⟩ "負債比" = "-" :=
  ⟨(debt_ratio_guard_amended exBucketNeg finalStructInit "113年 Q1" [] (-5) 0).2.1 rfl
      (by norm_num),
   (debt_ratio_guard_amended exBucketNeg finalStructInit "113年 Q1" [] (-5) 0).2.2.2
      exFrameZero ⟨2024, 12, 31⟩ (by decide)⟩

/-! ### Claim C2 — Q4 imputation -/

unseal Rat.mul Rat.inv in
/-- C2 (counterexample): with annual EPS `A = 5.00` resolved, Q1–Q3 resolved as
`1.00`, `1.20`, `1.30` (sum `3.50`), and the Q4 bucket unresolved, the claim
demands an imputed Q4 cell `A − S = 1.50` tagged as imputed; the pipeline's
EPS row instead has no Q4 cell at all and carries no value `"1.50"`. -/
theorem no_q4_imputation_cx :
    ex2EpsRow.lookup "113年 Q1" = some "1.00"
    ∧ ex2EpsRow.lookup "113年 Q2" = some "1.20"
    ∧ ex2EpsRow.lookup "113年 Q3" = some "1.30"
    ∧ ex2EpsRow.lookup "113年" = some "5.00"
    ∧ ex2EpsRow.lookup "113年 Q4" = none
    ∧ (ex2EpsRow.map Prod.snd).contains "1.50" = false := by
  refine ⟨?_, ?_, ?_, ?_, ?_, ?_⟩ <;> decide

/-- C2 (amended): no `A − S` imputation is performed anywhere; a fiscal year's
Q4 cell simply stays unresolved. Instead, at render time the year column falls
back to the Q4 cell's value suffixed `" (Q4)"` whenever the annual cell is
absent or a sentinel, and shows the annual value directly otherwise. -/
theorem q4_render_fallback_amended (row : List (String × String)) (roc : ℕ) (vf v4 : String)
    (h4 : row.lookup (Nat.repr roc ++ "年 Q4") = some v4) :
    (row.lookup (Nat.repr roc ++ "年") = some vf → ["-", "None", "0"].contains vf = false →
      get_year_val roc row = vf)
    ∧ (row.lookup (Nat.repr roc ++ "年") = none → get_year_val roc row = v4 ++ " (Q4)")
    ∧ (row.lookup (Nat.repr roc ++ "年") = some vf → ["-", "None", "0"].contains vf = true →
      get_year_val roc row = v4 ++ " (Q4)") := by
  refine ⟨fun hf hnf => ?_, fun hn => ?_, fun hf hsf => ?_⟩
  · have hmem : ¬ (vf = "-" ∨ vf = "None" ∨ vf = "0") := by simpa using hnf
    simp [get_year_val, hf]
    intro h
    exact absurd h hmem
  · simp [get_year_val, hn, h4]
  · have hmem : vf = "-" ∨ vf = "None" ∨ vf = "0" := by simpa using hsf
    simp [get_year_val, hf, h4]
    intro h1 h2 h3
    rcases hmem with rfl | rfl | rfl
    · exact absurd rfl h1
    · exact absurd rfl h2
    · exact absurd rfl h3

/-- C2 (witness): the amended render fallback at a concrete row — a sentinel
annual EPS cell and a Q4 cell `2.00` yield the year value `"2.00 (Q4)"`. -/
theorem q4_render_fallback_amended_witness :
    get_year_val 113 exRowW2 = "2.00" ++ " (Q4)" :=
  (q4_render_fallback_amended exRowW2 113 "-" "2.00" (by decide)).2.2 (by decide) (by decide)

/-! ### Claim C3 — the assembled columns -/

/-- C3 (counterexample): a FinMind run whose only observation is an EPS value
for 114年 Q3 populates that period in the EPS row, yet the assembled table
shows no column at all — the claim that a period is omitted only when it has
zero resolved cells across all metrics is false. -/
theorem populated_period_omitted_cx :
    displayQuartersOf ((fetch_finmind_data_history exD3).getD []) = []
    ∧ ((fetch_finmind_data_history exD3).getD []).any
        (fun r => r.contains ("114年 Q3", "3.00")) = true := by
  constructor
  · decide
  · decide

/-- C3 (amended): the quarter columns are drawn from the keys of the FIRST row
only, restricted to those whose Revenue-row value is a resolved non-sentinel
string, and capped at the five most recent; within those constraints they are
ordered descending by label (most-recent-first for the equal-width ROC labels
the pipeline emits). Periods resolved only by non-Revenue metrics are omitted. -/
theorem display_columns_amended (rows : List (List (String × String))) :
    (displayQuartersOf rows).Pairwise (fun a b => strLtB a b = false)
    ∧ (displayQuartersOf rows).length ≤ 5
    ∧ ∀ q ∈ displayQuartersOf rows,
        q ∈ allKeysOf rows ∧
        ∀ rr, revRowOf rows = some rr →
          sentinelVals.contains ((rr.lookup q).getD "-") = false := by
  have hvalid : (validQuartersOf rows).Sublist (allQuartersOf rows) := by
    unfold validQuartersOf
    cases revRowOf rows with
    | none => exact List.Sublist.refl _
    | some rr => exact List.filter_sublist _
  have hdisp : (displayQuartersOf rows).Sublist (allQuartersOf rows) :=
    List.Sublist.trans (List.take_sublist _ _) hvalid
  refine ⟨?_, ?_, ?_⟩
  · exact List.Pairwise.sublist hdisp (sortQDesc_pairwise _)
  · have := List.length_take 5 (validQuartersOf rows)
    unfold displayQuartersOf
    rw [List.length_take]
    exact min_le_left _ _
  · intro q hq
    have hqa : q ∈ allQuartersOf rows := hdisp.mem hq
    have hqk : q ∈ allKeysOf rows := by
      have := mem_sortQDesc.mp hqa
      exact (List.mem_filter.mp this).1
    refine ⟨hqk, ?_⟩
    intro rr hrr
    have hqv : q ∈ validQuartersOf rows := List.mem_of_mem_take hq
    unfold validQuartersOf at hqv
    rw [hrr] at hqv
    have := (List.mem_filter.mp hqv).2
    simpa using this

/-- C3 (witness): the amended column law applied to a concrete series whose
revenue row resolves 114年 Q1. -/
theorem display_columns_amended_witness :
    "114年 Q1" ∈ allKeysOf exRowsW ∧
    ∀ rr, revRowOf exRowsW = some rr →
      sentinelVals.contains ((rr.lookup "114年 Q1").getD "-") = false :=
  (display_columns_amended exRowsW).2.2 "114年 Q1" (by decide)

/-! ### Claim C4 — unit normalization -/

/-- C4: every monetary-magnitude metric is normalized as
`f"{int(v/1000):,}"` — division by 1000 with truncation toward zero (not
rounding, as 989,918,777 shows; toward zero also for negatives) and thousands
separators — while EPS stays in native units rendered with exactly two decimal
places (a dot followed by a two-character fraction). -/
theorem unit_normalization_law (t : String) (v : ℚ) (ht : t ∈ monetaryItems) :
    normalizeYF t v = fmtThousands (pyIntDiv v.num (v.den * 1000))
    ∧ normalizeYF "每股盈餘(EPS)" v = fmt2 v
    ∧ normalizeYF "營業收入" 989918318 = "989,918"
    ∧ normalizeYF "營業收入" 989918777 = "989,918"
    ∧ normalizeYF "總資產" (-1500) = "-1"
    ∧ ∃ s u, fmt2 v = s ++ "." ++ u ∧ u.length = 2 := by
  refine ⟨?_, by simp [normalizeYF], by decide, by decide, by decide, ?_⟩
  · fin_cases ht <;> simp [normalizeYF, fmtMoney]
  · refine ⟨(if roundHEPair (v.num * 100) (v.den : ℤ) < 0 then "-" else "") ++
      Nat.repr ((roundHEPair (v.num * 100) (v.den : ℤ)).natAbs / 100),
      twoDig ((roundHEPair (v.num * 100) (v.den : ℤ)).natAbs % 100), ?_, rfl⟩
    simp [fmt2, String.append_assoc]

/-- C4 (witness): the normalization law applied to Revenue at the concrete raw
value of the specification's example. -/
theorem unit_normalization_law_witness :
    normalizeYF "營業收入" 989918318 =
      fmtThousands (pyIntDiv (989918318 : ℚ).num ((989918318 : ℚ).den * 1000)) :=
  (unit_normalization_law "營業收入" 989918318 (by decide)).1

/-! ### Claim C5 — alias priority determinism -/

/-- C5: when a bucket holds, from the same provider, two observations whose
labels sit at priority ranks 0 and 1, the resolver returns the rank-0 value,
and it does so for either ingestion order of the two observations. -/
theorem alias_priority_determinism (prio : List String) (a b : String) (va vb : ℚ)
    (h0 : prio.get? 0 = some a) (h1 : prio.get? 1 = some b) (hab : a ≠ b) :
    resolveByPriority prio (dictInsert (dictInsert [] a va) b vb) = some va
    ∧ resolveByPriority prio (dictInsert (dictInsert [] b vb) a va) = some va := by
  obtain ⟨tl, rfl⟩ : ∃ tl, prio = a :: tl := by
    cases prio with
    | nil => simp at h0
    | cons x t =>
      simp only [List.get?] at h0
      exact ⟨t, by rw [Option.some.injEq] at h0; rw [h0]⟩
  have hins1 : dictInsert (dictInsert ([] : List (String × ℚ)) a va) b vb = [(a, va), (b, vb)] := by
    simp [dictInsert, hab]
  have hins2 : dictInsert (dictInsert ([] : List (String × ℚ)) b vb) a va = [(b, vb), (a, va)] := by
    simp [dictInsert, Ne.symm hab]
  constructor
  · rw [hins1]
    unfold resolveByPriority
    rw [List.findSome?_cons]
    simp [List.lookup]
  · rw [hins2]
    unfold resolveByPriority
    rw [List.findSome?_cons]
    have hf : (a == b) = false := beq_eq_false_iff_ne.mpr hab
    simp [List.lookup, hf]

/-- C5 (witness): the EPS priority list with labels `EPS` (rank 0) and
`BasicEarningsPerShare` (rank 1), each ingestion order returning the rank-0
value 1. -/
theorem alias_priority_determinism_witness :
    resolveByPriority EPS_PRIORITY
        (dictInsert (dictInsert [] "EPS" (1 : ℚ)) "BasicEarningsPerShare" 2) = some 1
    ∧ resolveByPriority EPS_PRIORITY
        (dictInsert (dictInsert [] "BasicEarningsPerShare" (2 : ℚ)) "EPS" 1) = some 1 :=
  alias_priority_determinism EPS_PRIORITY "EPS" "BasicEarningsPerShare" 1 2 rfl rfl (by decide)

/-! ### Claim C6 — period bucketing ignores the day -/

/-- C6: two observation dates agreeing on calendar year and on quarter
`⌈month/3⌉` are mapped to the same bucket label, whatever their day (or even
month-within-quarter) components are — the day never enters the bucket key. -/
theorem period_bucket_day_invariance (d1 d2 : Date) (hy : d1.year = d2.year)
    (hq : (d1.month + 2) / 3 = (d2.month + 2) / 3) :
    date_to_roc_quarter d1 = date_to_roc_quarter d2 := by
  have hm : (d1.month - 1) / 3 + 1 = (d2.month - 1) / 3 + 1 := by omega
  unfold date_to_roc_quarter
  rw [hy, hm]

/-- C6 (witness): 2024-03-31 and 2024-03-28 (days apart) land in the same
bucket, 113年 Q1. -/
theorem period_bucket_day_invariance_witness :
    date_to_roc_quarter ⟨2024, 3, 31⟩ = date_to_roc_quarter ⟨2024, 3, 28⟩ :=
  period_bucket_day_invariance ⟨2024, 3, 31⟩ ⟨2024, 3, 28⟩ rfl rfl

/-! ### Claim C7 — monthly revenue fallback -/

/-- C7: when no statement revenue candidate resolves for a quarter bucket but
at least one of the quarter's three calendar months has a monthly-revenue
observation, the revenue cell is the formatted sum of the available monthly
values tagged `(月加總)` — a value, never the unavailable sentinel, even with
fewer than three months present. -/
theorem monthly_revenue_fallback (b : Bucket) (mmap : List ((ℕ × ℕ) × ℚ))
    (hrev : resolveByPriority REV_PRIORITY b.rev = none) (m : ℕ)
    (hm : m ∈ quarterMonths (get_quarter_from_date b.dateObj).2)
    (hobs : (mmap.lookup ((get_quarter_from_date b.dateObj).1, m)).isSome = true) :
    revCell b mmap =
      some (fmtMoney ((quarterMonths (get_quarter_from_date b.dateObj).2).filterMap
          (fun k => mmap.lookup ((get_quarter_from_date b.dateObj).1, k))).sum
        ++ " (月加總)") := by
  obtain ⟨v, hv⟩ := Option.isSome_iff_exists.mp hobs
  have hne : ((quarterMonths (get_quarter_from_date b.dateObj).2).filterMap
      (fun k => mmap.lookup ((get_quarter_from_date b.dateObj).1, k))).length ≠ 0 := by
    intro hnil
    rw [List.length_eq_zero] at hnil
    have hvmem : v ∈ (quarterMonths (get_quarter_from_date b.dateObj).2).filterMap
        (fun k => mmap.lookup ((get_quarter_from_date b.dateObj).1, k)) :=
      List.mem_filterMap.mpr ⟨m, hm, hv⟩
    rw [hnil] at hvmem
    exact absurd hvmem (List.not_mem_nil v)
  unfold revCell
  rw [hrev]
  unfold calculate_quarterly_rev
  rw [if_pos (Nat.pos_of_ne_zero hne)]

unseal Rat.add in
/-- C7 (witness): monthly observations for only two of the three months of
2025 Q3 (100,000 and 200,000) and no statement candidate give the revenue cell
`"300 (月加總)"`. -/
theorem monthly_revenue_fallback_witness :
    revCell exBucketQ3 exMmapQ3 = some ("300 (月加總)") := by
  have h := monthly_revenue_fallback exBucketQ3 exMmapQ3 rfl 7 (by decide) (by decide)
  rw [h]
  decide

/-! ### Claim C8 — cross-provider fallback -/

/-- C8: when the primary (yfinance) provider yields no usable statements, the
persisted series is computed from the secondary (FinMind) observations alone —
it does not depend on the primary frames at all — and the resulting series
carries the provenance row identifying the secondary provider. -/
theorem cross_provider_fallback (stock_code stock_name now : String) (yf yf' : YfData)
    (fm : FMData) (h : yf.qbs_empty = true) (h' : yf'.qbs_empty = true)
    (hfm : (fm.income.isEmpty && fm.balance.isEmpty && fm.cash.isEmpty && fm.rev.isEmpty)
      = false) :
    fetch_and_upload_data stock_code stock_name false yf fm now =
      some ⟨stock_code, stock_name, finmindSeries fm, now⟩
    ∧ srcRowFM ∈ finmindSeries fm
    ∧ fetch_and_upload_data stock_code stock_name false yf fm now =
      fetch_and_upload_data stock_code stock_name false yf' fm now := by
  have hf : fetch_finmind_data_history fm = some (finmindSeries fm) := by
    unfold fetch_finmind_data_history
    rw [hfm]
    simp
  have hrun : ∀ z : YfData, z.qbs_empty = true →
      fetch_and_upload_data stock_code stock_name false z fm now =
        some ⟨stock_code, stock_name, finmindSeries fm, now⟩ := by
    intro z hz
    unfold fetch_and_upload_data
    rw [if_neg (by simp), hz]
    simp [hf]
  refine ⟨hrun yf h, ?_, (hrun yf h).trans (hrun yf' h').symm⟩
  exact List.mem_append_right _ (List.mem_singleton.mpr rfl)

/-- C8 (witness): with both primary quarterly statements empty and one EPS
observation on the secondary side, the pipeline yields exactly the FinMind
series (whatever the unused primary frames hold) with its provenance row. -/
theorem cross_provider_fallback_witness :
    fetch_and_upload_data "4546" "demo" false exYfEmpty exD3 "2026-01-01" =
      some ⟨"4546", "demo", finmindSeries exD3, "2026-01-01"⟩
    ∧ srcRowFM ∈ finmindSeries exD3
    ∧ fetch_and_upload_data "4546" "demo" false exYfEmpty exD3 "2026-01-01" =
      fetch_and_upload_data "4546" "demo" false exYfEmpty' exD3 "2026-01-01" :=
  cross_provider_fallback "4546" "demo" "2026-01-01" exYfEmpty exYfEmpty' exD3 rfl rfl
    (by decide)

/-! ### Claim C9 — deterministic re-ingestion -/

/-- C9: the assembled `financial_data` of the persisted payload is a function
of the upstream observations alone — two runs over the same upstream data (with
arbitrary wall-clock timestamps, which only stamp `updated_at`) produce the
identical series. -/
theorem series_deterministic_of_data (stock_code stock_name : String) (force : Bool)
    (yf : YfData) (fm : FMData) (t1 t2 : String) :
    (fetch_and_upload_data stock_code stock_name force yf fm t1).map Payload.financial_data =
    (fetch_and_upload_data stock_code stock_name force yf fm t2).map Payload.financial_data := by
  unfold fetch_and_upload_data
  split
  · cases fetch_finmind_data_history fm <;> rfl
  · split
    · cases fetch_finmind_data_history fm <;> rfl
    · rfl

/-! ### Claim C10 — the analyze endpoint always answers 200 -/

/-- C10: every request outcome — body parse failure, empty input, database
error, unknown company, empty stored data, or a fully assembled report — is
answered with HTTP status 200; failures are reported only inside the JSON
body. -/
theorem analyze_always_200 (body : Except String (List (String × String)))
    (dbRes : Except String (List DbRecord)) :
    (analyze body dbRes).status = 200 := by
  unfold analyze
  rcases body with e | bd
  · rfl
  · dsimp only
    split
    · rfl
    · rcases dbRes with e | recs
      · rfl
      · rcases recs with _ | ⟨r, rest⟩
        · rfl
        · dsimp only
          split <;> rfl
